import Mathlib

/-!
Verification development for the wallet-ownership verification protocol and
reward issuance state machine of the EHDC repository (brother-nature core).

The embedding below is a shallow model of:
  * `src/platforms/brother-nature/core/src/services/xrpl.service.ts`
      (`XRPLService.verifyWalletSignature`, `XRPLService.sendTokenReward`,
       `XRPLService.rewardVerifiedContribution`,
       `XRPLService.generateChallengeMessage`),
  * the `wallet/challenge` and `wallet/verify` route handlers of the auth
    routes file, and
  * the synthesis `/trigger` handler.

Ambient effects are made explicit: the current time is a `Nat` (milliseconds)
argument, `new Date().toISOString()` is a `String` argument, the random bytes
of `crypto.randomBytes(32)` are a `List Nat` argument, the `xrpl` library's
`Wallet.verify` (which may throw) is a `String → String → String → Except
String Bool` argument, and the external ledger round-trip of
`client.submitAndWait` is a `ChainOutcome` argument.  The Prisma database is a
record of lists; `findUnique` by a unique key becomes `List.find?`, and
`update` by a unique id becomes a `List.map` guarded on that id.
-/

/-- Row of the `User` table (the fields the wallet/auth handlers touch). -/
structure User where
  id : String
  email : String
  username : String
  displayName : String
  role : String
  xrplWalletAddress : Option String
  deriving DecidableEq, Repr

/--
Row of the `WalletChallenge` table, as created by the `wallet/challenge`
handler and mutated by the `wallet/verify` handler.
-/
structure WalletChallenge where
  id : Nat
  nonce : String
  message : String
  xrplAddress : String
  userId : String
  expiresAt : Nat
  isUsed : Bool
  isVerified : Bool
  verifiedAt : Option Nat
  deriving DecidableEq, Repr

/-- The `TokenType` Prisma enum. -/
inductive TokenType where
  | EXPLORER
  | REGEN
  | GUARDIAN
  deriving DecidableEq, Repr

/-- The reward status enum: `PENDING | PROCESSING | CONFIRMED | FAILED`. -/
inductive RewardStatus where
  | PENDING
  | PROCESSING
  | CONFIRMED
  | FAILED
  deriving DecidableEq, Repr

/-- Row of the `TokenReward` table, as written by `sendTokenReward`. -/
structure TokenReward where
  id : Nat
  userId : String
  tokenType : TokenType
  amount : String
  xrplDestination : String
  xrplIssuer : String
  xrplCurrency : String
  reason : String
  postId : Option String
  status : RewardStatus
  xrplTxHash : Option String
  errorMessage : Option String
  processedAt : Option Nat
  confirmedAt : Option Nat
  deriving DecidableEq, Repr

/-- The Prisma database state the embedded handlers read and write. -/
structure DB where
  users : List User
  challenges : List WalletChallenge
  rewards : List TokenReward
  deriving DecidableEq, Repr

/-- Hex digit characters used by Node's `Buffer.toString('hex')` (lowercase). -/
def hexDigit (n : Nat) : Char :=
  if n < 10 then Char.ofNat (48 + n) else Char.ofNat (87 + n)

/-- Little helper: is `c` a lowercase hexadecimal digit? -/
def isLowerHexChar (c : Char) : Bool :=
  (decide ('0' ≤ c) && decide (c ≤ '9')) || (decide ('a' ≤ c) && decide (c ≤ 'f'))

/--
`Buffer.toString('hex')`: each byte becomes two lowercase hex digits, high
nibble first.  The `% 16` keeps the definition total on arbitrary `Nat`s; a
byte `b < 256` satisfies `b / 16 % 16 = b / 16`.
-/
def bytesToHexList : List Nat → List Char
  | [] => []
  | b :: rest => hexDigit (b / 16 % 16) :: hexDigit (b % 16) :: bytesToHexList rest

/-- `Buffer.from(bytes).toString('hex')` as a `String`. -/
def bytesToHex (bs : List Nat) : String :=
  ⟨bytesToHexList bs⟩

/-- `Buffer.from(message, 'utf8').toString('hex')` from `verifyWalletSignature`. -/
def utf8ToHex (message : String) : String :=
  bytesToHex (message.toUTF8.toList.map (fun b => b.toNat))

/--
`XRPLService.verifyWalletSignature(message, signature, publicKey)`.
The xrpl library call `Wallet.verify(messageHex, signature, publicKey)` is the
parameter `w`; it may throw (the `Except.error` case).  The TypeScript method
hex-encodes the UTF-8 message, calls `Wallet.verify`, and catches any thrown
error, returning `false`.
-/
def verifyWalletSignature (w : String → String → String → Except String Bool)
    (message signature publicKey : String) : Bool :=
  match w (utf8ToHex message) signature publicKey with
  | Except.ok b => b
  | Except.error _ => false

/-- The distinct typed failures of the `wallet/verify` handler, in source order. -/
inductive VerifyError where
  | notFound
  | forbidden
  | expired
  | alreadyUsed
  | addressMismatch
  | invalidSignature
  deriving DecidableEq, Repr

/-- Body of a `wallet/verify` request (after `walletVerifySchema` parsing). -/
structure VerifyRequest where
  nonce : String
  xrplWalletAddress : String
  signature : String
  publicKey : String
  deriving DecidableEq, Repr

/-- `prisma.walletChallenge.findUnique({ where: { nonce } })`. -/
def findChallenge (db : DB) (nonce : String) : Option WalletChallenge :=
  db.challenges.find? (fun c => c.nonce = nonce)

/--
`prisma.walletChallenge.update({ where: { id }, data: { isUsed: true,
isVerified: true, verifiedAt: new Date() } })`.
-/
def consumeChallenge (db : DB) (cid : Nat) (now : Nat) : DB :=
  { db with
    challenges := db.challenges.map (fun c =>
      if c.id = cid then
        { c with isUsed := true, isVerified := true, verifiedAt := some now }
      else c) }

/--
`prisma.user.update({ where: { id: uid }, data: { xrplWalletAddress } })`:
only the wallet-address column of the matching user row changes.
-/
def bindUserWallet (db : DB) (uid addr : String) : DB :=
  { db with
    users := db.users.map (fun u =>
      if u.id = uid then { u with xrplWalletAddress := some addr } else u) }

/--
The `wallet/verify` route handler.  `w` is the xrpl `Wallet.verify` call,
`uid` the authenticated user's id (`request.user.id`), `now` the current time
in milliseconds.  It returns the (possibly updated) database together with the
outcome; every early-return error leaves the database exactly as given.
-/
def walletVerify (w : String → String → String → Except String Bool)
    (db : DB) (uid : String) (now : Nat) (body : VerifyRequest) :
    DB × Except VerifyError Unit :=
  match findChallenge db body.nonce with
  | none => (db, Except.error VerifyError.notFound)
  | some challenge =>
    if challenge.userId ≠ uid then
      (db, Except.error VerifyError.forbidden)
    else if now > challenge.expiresAt then
      (db, Except.error VerifyError.expired)
    else if challenge.isUsed then
      (db, Except.error VerifyError.alreadyUsed)
    else if challenge.xrplAddress ≠ body.xrplWalletAddress then
      (db, Except.error VerifyError.addressMismatch)
    else if ¬ verifyWalletSignature w challenge.message body.signature body.publicKey then
      (db, Except.error VerifyError.invalidSignature)
    else
      let db1 := consumeChallenge db challenge.id now
      let db2 := bindUserWallet db1 uid body.xrplWalletAddress
      (db2, Except.ok ())

/--
`XRPLService.generateChallengeMessage(nonce, xrplAddress)`.  The TypeScript
template literal interpolates the wallet address, the nonce, and
`new Date().toISOString()`; the latter ambient value is the explicit argument
`nowIso` here.
-/
def generateChallengeMessage (nonce xrplAddress nowIso : String) : String :=
  "Brother Nature Wallet Verification\n\nPlease sign this message to verify ownership of your XRPL wallet.\n\nWallet Address: "
    ++ xrplAddress
    ++ "\nVerification Code: "
    ++ nonce
    ++ "\nTimestamp: "
    ++ nowIso
    ++ "\n\nThis request will expire in 5 minutes."

/-- Failures of the `wallet/challenge` handler. -/
inductive ChallengeError where
  | conflict
  deriving DecidableEq, Repr

/-- Response body of a successful `wallet/challenge` call. -/
structure ChallengeResponse where
  nonce : String
  message : String
  expiresAt : Nat
  deriving DecidableEq, Repr

/--
The issuing tail of the `wallet/challenge` handler: generate the nonce from
the 32 random bytes, compute `expiresAt = Date.now() + 5 * 60 * 1000`, build
the message, and persist one new challenge row.
-/
def walletChallengeIssue (db : DB) (uid addr : String) (bs : List Nat)
    (now : Nat) (nowIso : String) (nextId : Nat) :
    DB × Except ChallengeError ChallengeResponse :=
  let nonce := bytesToHex bs
  let expiresAt := now + 5 * 60 * 1000
  let message := generateChallengeMessage nonce addr nowIso
  let challenge : WalletChallenge :=
    { id := nextId, nonce := nonce, message := message, xrplAddress := addr,
      userId := uid, expiresAt := expiresAt, isUsed := false,
      isVerified := false, verifiedAt := none }
  ({ db with challenges := db.challenges ++ [challenge] },
   Except.ok { nonce := nonce, message := message, expiresAt := expiresAt })

/--
The `wallet/challenge` route handler.  `uid` is the authenticated user's id,
`addr` the validated body address, `bs` the 32 bytes of
`crypto.randomBytes(32)`, `now` the value of `Date.now()` in milliseconds,
`nowIso` the ISO timestamp interpolated into the message, and `nextId` the id
Prisma assigns to the created row.  The handler rejects with 409 Conflict when
the address is already bound to a different user, otherwise persists one new
challenge row with `expiresAt = now + 5 * 60 * 1000`.
-/
def walletChallenge (db : DB) (uid addr : String) (bs : List Nat)
    (now : Nat) (nowIso : String) (nextId : Nat) :
    DB × Except ChallengeError ChallengeResponse :=
  match db.users.find? (fun u => u.xrplWalletAddress = some addr) with
  | some existingWallet =>
    if existingWallet.id ≠ uid then
      (db, Except.error ChallengeError.conflict)
    else
      walletChallengeIssue db uid addr bs now nowIso nextId
  | none => walletChallengeIssue db uid addr bs now nowIso nextId

/-- Chain round-trip outcome observed by `sendTokenReward`:
`client.submitAndWait` reports `tesSUCCESS` with a hash, reports a
non-`tesSUCCESS` result (the code then throws `'Transaction not successful'`),
or the network call itself throws with some message. -/
inductive ChainOutcome where
  | success (hash : String)
  | notSuccess
  | netError (msg : String)
  deriving DecidableEq, Repr

/-- The `TokenConfig` interface of `xrpl.service.ts`. -/
structure TokenConfig where
  currency : String
  issuerAddress : String
  issuerSecret : String
  deriving DecidableEq, Repr

/-- The `TokenDistribution` interface (`this.tokenConfig`). -/
structure TokenDistribution where
  EXP : TokenConfig
  RGN : TokenConfig
  GRD : TokenConfig
  deriving DecidableEq, Repr

/-- `XRPLService.getTokenConfig`: maps the token type to its currency config. -/
def getTokenConfig (tc : TokenDistribution) (tokenType : TokenType) : TokenConfig :=
  match tokenType with
  | TokenType.EXPLORER => tc.EXP
  | TokenType.REGEN => tc.RGN
  | TokenType.GUARDIAN => tc.GRD

/--
The `prisma.tokenReward.create` data literal inside `sendTokenReward`: the row
as first persisted, with the routing snapshot and `status: 'PROCESSING'`.
-/
def mkTokenReward (id : Nat) (userId : String) (tokenType : TokenType)
    (amount xrplDestination xrplIssuer xrplCurrency reason : String)
    (postId : Option String) : TokenReward :=
  { id := id, userId := userId, tokenType := tokenType, amount := amount,
    xrplDestination := xrplDestination, xrplIssuer := xrplIssuer,
    xrplCurrency := xrplCurrency, reason := reason, postId := postId,
    status := RewardStatus.PROCESSING, xrplTxHash := none,
    errorMessage := none, processedAt := none, confirmedAt := none }

/--
The `prisma.tokenReward.update` applied to the freshly created row once the
chain round-trip settles: `tesSUCCESS` stores the hash and CONFIRMED; a
non-successful result is thrown as `'Transaction not successful'` and caught,
storing FAILED with that message; a thrown network error stores FAILED with
the error's message.
-/
def finalizeReward (r : TokenReward) (chain : ChainOutcome) (now : Nat) : TokenReward :=
  match chain with
  | ChainOutcome.success h =>
    { r with xrplTxHash := some h, status := RewardStatus.CONFIRMED,
             processedAt := some now, confirmedAt := some now }
  | ChainOutcome.notSuccess =>
    { r with status := RewardStatus.FAILED,
             errorMessage := some "Transaction not successful",
             processedAt := some now }
  | ChainOutcome.netError m =>
    { r with status := RewardStatus.FAILED, errorMessage := some m,
             processedAt := some now }

/--
`XRPLService.sendTokenReward(recipientAddress, amount, tokenType, reason,
userId, postId)`.  It creates a `TokenReward` row with status PROCESSING, then
submits the payment; the update targeting that row's unique Prisma id is
rendered as finalizing the freshly appended row (the fresh id
`db.rewards.length` stands for Prisma's generated id).  On `tesSUCCESS` the
method returns the hash; otherwise it rethrows
`"Failed to send token: <message>"` after recording the failure.
-/
def sendTokenReward (cfg : TokenDistribution) (chain : ChainOutcome) (db : DB)
    (recipientAddress amount : String) (tokenType : TokenType)
    (reason userId : String) (postId : Option String) (now : Nat) :
    DB × Except String String :=
  let config := getTokenConfig cfg tokenType
  let reward := mkTokenReward db.rewards.length userId tokenType amount
    recipientAddress config.issuerAddress config.currency reason postId
  let db1 : DB := { db with rewards := db.rewards ++ [finalizeReward reward chain now] }
  match chain with
  | ChainOutcome.success h => (db1, Except.ok h)
  | ChainOutcome.notSuccess =>
    (db1, Except.error ("Failed to send token: " ++ "Transaction not successful"))
  | ChainOutcome.netError m =>
    (db1, Except.error ("Failed to send token: " ++ m))

/--
`XRPLService.rewardVerifiedContribution(userId, postId, amount)`: loads the
user, requires a linked wallet, then sends an EXPLORER reward with the reason
string `` `Verified contribution in post ${postId}` ``.
-/
def rewardVerifiedContribution (cfg : TokenDistribution) (chain : ChainOutcome)
    (db : DB) (userId postId amount : String) (now : Nat) :
    DB × Except String String :=
  match db.users.find? (fun u => u.id = userId) with
  | none => (db, Except.error "User must link XRPL wallet before receiving rewards")
  | some user =>
    match user.xrplWalletAddress with
    | none => (db, Except.error "User must link XRPL wallet before receiving rewards")
    | some addr =>
      sendTokenReward cfg chain db addr amount TokenType.EXPLORER
        ("Verified contribution in post " ++ postId) userId (some postId) now

/-- The thread-root post fields the synthesis `/trigger` handler uses. -/
structure Post where
  id : String
  authorId : String
  deriving DecidableEq, Repr

/-- Outcome of the synthesis `/trigger` handler, reward-relevant part. -/
structure TriggerResponse where
  statusCode : Nat
  rewardTxHash : Option String
  deriving DecidableEq, Repr

/--
The synthesis `/trigger` handler, restricted to its reward-relevant control
flow (artifact persistence and synthesis-text generation are elided: they do
not touch the reward or wallet state).  The handler 404s when the thread root
is absent; otherwise it awards 10 EXPLORER tokens to the thread author inside
a `try`/`catch` whose catch only logs, and replies 201 regardless of the
reward outcome, with `reward: null` when the reward attempt threw.
-/
def synthesisTrigger (cfg : TokenDistribution) (chain : ChainOutcome) (db : DB)
    (threadRoot : Option Post) (now : Nat) : DB × TriggerResponse :=
  match threadRoot with
  | none => (db, { statusCode := 404, rewardTxHash := none })
  | some p =>
    let step := rewardVerifiedContribution cfg chain db p.authorId p.id "10" now
    match step.2 with
    | Except.ok h => (step.1, { statusCode := 201, rewardTxHash := some h })
    | Except.error _ => (step.1, { statusCode := 201, rewardTxHash := none })

/--
Number of CONFIRMED reward rows for a given
`(beneficiaryUserId, contributionRef, tokenKind)` dedupe triple.
-/
def countConfirmedTriple (db : DB) (userId contributionRef : String)
    (tokenType : TokenType) : Nat :=
  (db.rewards.filter (fun r =>
    r.userId = userId ∧ r.postId = some contributionRef ∧
    r.tokenType = tokenType ∧ r.status = RewardStatus.CONFIRMED)).length

/-! ### Concrete fixtures used by witnesses and counterexamples -/

/-- An xrpl `Wallet.verify` stub that accepts every signature. -/
def wTrue : String → String → String → Except String Bool :=
  fun _ _ _ => Except.ok true

/-- An xrpl `Wallet.verify` stub that rejects every signature. -/
def wFalse : String → String → String → Except String Bool :=
  fun _ _ _ => Except.ok false

/-- An xrpl `Wallet.verify` stub that always throws. -/
def wThrow : String → String → String → Except String Bool :=
  fun _ _ _ => Except.error "boom"

/-- A candidate public-key-to-address derivation; it derives an address
different from every challenge address used in the fixtures. -/
def deriveAddr0 : String → String := fun _ => "rOTHER"

/-- Fixture user owning the fixture challenge; no wallet bound yet. -/
def user1 : User :=
  { id := "u1", email := "u1@x.io", username := "u1", displayName := "U one",
    role := "USER", xrplWalletAddress := none }

/-- Fixture challenge for user `u1` on address `rA`, expiring at t=1000. -/
def chal1 : WalletChallenge :=
  { id := 1, nonce := "aa", message := "msg", xrplAddress := "rA",
    userId := "u1", expiresAt := 1000, isUsed := false, isVerified := false,
    verifiedAt := none }

/-- Fixture database: one user, one fresh challenge. -/
def db0 : DB := { users := [user1], challenges := [chal1], rewards := [] }

/-- Matching verify request for `chal1`. -/
def body1 : VerifyRequest :=
  { nonce := "aa", xrplWalletAddress := "rA", signature := "sig", publicKey := "pk" }

/-- Verify request with an unknown nonce. -/
def bodyMiss : VerifyRequest :=
  { nonce := "zz", xrplWalletAddress := "rA", signature := "sig", publicKey := "pk" }

/-- Verify request whose address differs from the challenge's address. -/
def bodyAddrB : VerifyRequest :=
  { nonce := "aa", xrplWalletAddress := "rB", signature := "sig", publicKey := "pk" }

/-- `chal1`, already consumed. -/
def chalUsed : WalletChallenge := { chal1 with isUsed := true }

/-- Fixture database whose only challenge is already consumed. -/
def dbUsed : DB := { db0 with challenges := [chalUsed] }

/-- Fixture token configuration. -/
def cfg0 : TokenDistribution :=
  { EXP := { currency := "EXP", issuerAddress := "rIssuer", issuerSecret := "shh" },
    RGN := { currency := "RGN", issuerAddress := "rIssuer", issuerSecret := "shh" },
    GRD := { currency := "GRD", issuerAddress := "rIssuer", issuerSecret := "shh" } }

/-- Fixture user with a bound wallet, eligible for rewards. -/
def userW : User :=
  { id := "u1", email := "u1@x.io", username := "u1", displayName := "U one",
    role := "USER", xrplWalletAddress := some "rDest" }

/-- Fixture database for the reward scenarios. -/
def dbR : DB := { users := [userW], challenges := [], rewards := [] }

/-- Fixture thread-root post authored by `u1`. -/
def post1 : Post := { id := "p1", authorId := "u1" }

/-! ### Theorems -/

/--
**C10.** For every message, signature, and publicKey input, the
signature-verification function `verifyWalletSignature` is total with a
boolean result: when the underlying xrpl `Wallet.verify` call throws, the
exception is caught and the function returns `false`; when it returns a
boolean, that boolean is passed through.
-/
theorem verifyWalletSignature_never_raises
    (w : String → String → String → Except String Bool) (m s pk : String) :
    (∀ e, w (utf8ToHex m) s pk = Except.error e →
      verifyWalletSignature w m s pk = false) ∧
    (∀ b, w (utf8ToHex m) s pk = Except.ok b →
      verifyWalletSignature w m s pk = b) := by
  constructor
  · intro e he
    simp [verifyWalletSignature, he]
  · intro b hb
    simp [verifyWalletSignature, hb]

/-- Witness for C10: a throwing `Wallet.verify` yields `false`. -/
theorem verifyWalletSignature_never_raises_witness :
    verifyWalletSignature wThrow "msg" "sig" "pk" = false :=
  (verifyWalletSignature_never_raises wThrow "msg" "sig" "pk").1 "boom" rfl

/--
**C2.** The `wallet/verify` handler reports its failures as distinct typed
errors checked in source order — unknown nonce `notFound`; foreign challenge
`forbidden`; `now` strictly past `expiresAt` `expired`; consumed challenge
`alreadyUsed`; address differing from the challenge's `addressMismatch`;
failed signature check `invalidSignature` — and every failing call returns
the database unchanged.
-/
theorem walletVerify_error_taxonomy
    (w : String → String → String → Except String Bool)
    (db : DB) (uid : String) (now : Nat) (body : VerifyRequest) :
    (findChallenge db body.nonce = none →
      walletVerify w db uid now body = (db, Except.error VerifyError.notFound)) ∧
    (∀ c, findChallenge db body.nonce = some c → c.userId ≠ uid →
      walletVerify w db uid now body = (db, Except.error VerifyError.forbidden)) ∧
    (∀ c, findChallenge db body.nonce = some c → c.userId = uid →
      now > c.expiresAt →
      walletVerify w db uid now body = (db, Except.error VerifyError.expired)) ∧
    (∀ c, findChallenge db body.nonce = some c → c.userId = uid →
      ¬ now > c.expiresAt → c.isUsed = true →
      walletVerify w db uid now body = (db, Except.error VerifyError.alreadyUsed)) ∧
    (∀ c, findChallenge db body.nonce = some c → c.userId = uid →
      ¬ now > c.expiresAt → c.isUsed = false →
      c.xrplAddress ≠ body.xrplWalletAddress →
      walletVerify w db uid now body = (db, Except.error VerifyError.addressMismatch)) ∧
    (∀ c, findChallenge db body.nonce = some c → c.userId = uid →
      ¬ now > c.expiresAt → c.isUsed = false →
      c.xrplAddress = body.xrplWalletAddress →
      verifyWalletSignature w c.message body.signature body.publicKey = false →
      walletVerify w db uid now body = (db, Except.error VerifyError.invalidSignature)) := by
  refine ⟨?_, ?_, ?_, ?_, ?_, ?_⟩
  · intro h
    simp [walletVerify, h]
  · intro c hc h1
    simp [walletVerify, hc, h1]
  · intro c hc h1 h2
    simp [walletVerify, hc, h1, h2]
  · intro c hc h1 h2 h3
    simp [walletVerify, hc, h1, h2, h3]
  · intro c hc h1 h2 h3 h4
    simp [walletVerify, hc, h1, h2, h3, h4]
  · intro c hc h1 h2 h3 h4 h5
    simp [walletVerify, hc, h1, h2, h3, h4, h5]

/-- Witness for C2: each of the six failure cases observed on concrete data. -/
theorem walletVerify_error_taxonomy_witness :
    walletVerify wTrue db0 "u1" 0 bodyMiss = (db0, Except.error VerifyError.notFound) ∧
    walletVerify wTrue db0 "u2" 0 body1 = (db0, Except.error VerifyError.forbidden) ∧
    walletVerify wTrue db0 "u1" 2000 body1 = (db0, Except.error VerifyError.expired) ∧
    walletVerify wTrue dbUsed "u1" 0 body1 = (dbUsed, Except.error VerifyError.alreadyUsed) ∧
    walletVerify wTrue db0 "u1" 0 bodyAddrB = (db0, Except.error VerifyError.addressMismatch) ∧
    walletVerify wFalse db0 "u1" 0 body1 = (db0, Except.error VerifyError.invalidSignature) := by
  refine ⟨?_, ?_, ?_, ?_, ?_, ?_⟩
  · exact (walletVerify_error_taxonomy wTrue db0 "u1" 0 bodyMiss).1 rfl
  · exact (walletVerify_error_taxonomy wTrue db0 "u2" 0 body1).2.1 chal1 rfl (by decide)
  · exact (walletVerify_error_taxonomy wTrue db0 "u1" 2000 body1).2.2.1 chal1 rfl rfl (by decide)
  · exact (walletVerify_error_taxonomy wTrue dbUsed "u1" 0 body1).2.2.2.1 chalUsed rfl rfl
      (by decide) rfl
  · exact (walletVerify_error_taxonomy wTrue db0 "u1" 0 bodyAddrB).2.2.2.2.1 chal1 rfl rfl
      (by decide) rfl (by decide)
  · exact (walletVerify_error_taxonomy wFalse db0 "u1" 0 body1).2.2.2.2.2 chal1 rfl rfl
      (by decide) rfl rfl rfl

/--
Helper: every `wallet/verify` call either fails leaving the database
unchanged, or passes all six checks and performs exactly the
consume-then-bind update.
-/
theorem walletVerify_cases
    (w : String → String → String → Except String Bool)
    (db : DB) (uid : String) (now : Nat) (body : VerifyRequest) :
    ((walletVerify w db uid now body).1 = db ∧
      (walletVerify w db uid now body).2 ≠ Except.ok ()) ∨
    (∃ c, findChallenge db body.nonce = some c ∧ c.isUsed = false ∧
      c.userId = uid ∧ ¬ now > c.expiresAt ∧
      c.xrplAddress = body.xrplWalletAddress ∧
      verifyWalletSignature w c.message body.signature body.publicKey = true ∧
      walletVerify w db uid now body =
        (bindUserWallet (consumeChallenge db c.id now) uid body.xrplWalletAddress,
         Except.ok ())) := by
  cases hfind : findChallenge db body.nonce with
  | none =>
    left
    simp [walletVerify, hfind]
  | some c =>
    by_cases h1 : c.userId = uid
    · by_cases h2 : now > c.expiresAt
      · left
        simp [walletVerify, hfind, h1, h2]
      · by_cases h3 : c.isUsed = true
        · left
          simp [walletVerify, hfind, h1, h2, h3]
        · by_cases h4 : c.xrplAddress = body.xrplWalletAddress
          · by_cases h5 : verifyWalletSignature w c.message body.signature body.publicKey = true
            · right
              refine ⟨c, rfl, by simpa using h3, h1, h2, h4, h5, ?_⟩
              simp [walletVerify, hfind, h1, h2, h3, h4, h5]
            · left
              simp [walletVerify, hfind, h1, h2, h3, h4, h5]
          · left
            simp [walletVerify, hfind, h1, h2, h3, h4]
    · left
      simp [walletVerify, hfind, h1]

/--
Helper: `find?` by nonce commutes with mapping a nonce-preserving function
over the challenge list.
-/
theorem find?_map_noncePreserving (l : List WalletChallenge) (nonce : String)
    (f : WalletChallenge → WalletChallenge) (hf : ∀ c, (f c).nonce = c.nonce) :
    (l.map f).find? (fun c => c.nonce = nonce) =
      (l.find? (fun c => c.nonce = nonce)).map f := by
  induction l with
  | nil => rfl
  | cons a t ih =>
    by_cases h : a.nonce = nonce
    · simp [List.find?_cons, hf, h]
    · simp [List.find?_cons, hf, h, ih]

/--
Helper: the consume-challenge update preserves every challenge's nonce, so
lookup by nonce after the update finds the updated row.
-/
theorem findChallenge_consumeChallenge (db : DB) (cid : Nat) (now : Nat)
    (nonce : String) :
    findChallenge (consumeChallenge db cid now) nonce =
      (findChallenge db nonce).map (fun c =>
        if c.id = cid then
          { c with isUsed := true, isVerified := true, verifiedAt := some now }
        else c) := by
  unfold findChallenge consumeChallenge
  exact find?_map_noncePreserving db.challenges nonce _
    (fun c => by by_cases h : c.id = cid <;> simp [h])

/--
**C3 counterexample.** The claim says every post-success call with the same
nonce fails `AlreadyUsed`; but the expiry check precedes the consumed check,
so a second call made after `expiresAt` fails `Expired` instead, even though
the challenge was consumed by the earlier successful call.
-/
theorem walletVerify_second_call_expired_counterexample :
    (walletVerify wTrue db0 "u1" 0 body1).2 = Except.ok () ∧
    (walletVerify wTrue (walletVerify wTrue db0 "u1" 0 body1).1 "u1" 2000 body1).2
      = Except.error VerifyError.expired ∧
    VerifyError.expired ≠ VerifyError.alreadyUsed := by
  refine ⟨rfl, rfl, by decide⟩

/--
**C3 (amended).** Once a challenge is consumed, no verify call on its nonce
ever succeeds again, and such a call by the owner within the TTL fails
`AlreadyUsed` (after expiry it fails `Expired`, by the check order of the
handler); a successful call marks the challenge consumed and verified;
`isUsed` never returns to `false`; and `isVerified → isUsed` is an invariant
preserved by the handler.
-/
theorem walletVerify_consumed_is_final
    (w : String → String → String → Except String Bool)
    (db : DB) (uid : String) (now : Nat) (body : VerifyRequest) :
    (∀ c, findChallenge db body.nonce = some c → c.isUsed = true →
      (walletVerify w db uid now body).1 = db ∧
      (walletVerify w db uid now body).2 ≠ Except.ok () ∧
      (c.userId = uid → ¬ now > c.expiresAt →
        (walletVerify w db uid now body).2 = Except.error VerifyError.alreadyUsed)) ∧
    (∀ db', walletVerify w db uid now body = (db', Except.ok ()) →
      ∃ c', findChallenge db' body.nonce = some c' ∧
        c'.isUsed = true ∧ c'.isVerified = true) ∧
    ((walletVerify w db uid now body).1.challenges.length = db.challenges.length) ∧
    (∀ i : Nat, ∀ c0 c' : WalletChallenge, db.challenges[i]? = some c0 →
      (walletVerify w db uid now body).1.challenges[i]? = some c' →
      c0.isUsed = true → c'.isUsed = true) ∧
    ((∀ c ∈ db.challenges, c.isVerified = true → c.isUsed = true) →
      ∀ c ∈ (walletVerify w db uid now body).1.challenges,
        c.isVerified = true → c.isUsed = true) := by
  refine ⟨?_, ?_, ?_, ?_, ?_⟩
  · intro c hc hused
    by_cases h1 : c.userId = uid
    · by_cases h2 : now > c.expiresAt
      · refine ⟨?_, ?_, ?_⟩ <;> simp [walletVerify, hc, h1, h2, hused]
      · refine ⟨?_, ?_, ?_⟩ <;> simp [walletVerify, hc, h1, h2, hused]
    · refine ⟨?_, ?_, ?_⟩ <;> simp [walletVerify, hc, h1, hused]
  · intro db' hok
    rcases walletVerify_cases w db uid now body with ⟨_, hne⟩ | ⟨c, hc, _, _, _, _, _, heq⟩
    · exact absurd (by rw [hok]) hne
    · have hdb : bindUserWallet (consumeChallenge db c.id now) uid
          body.xrplWalletAddress = db' :=
        congrArg Prod.fst (heq.symm.trans hok)
      refine ⟨{ c with isUsed := true, isVerified := true, verifiedAt := some now },
        ?_, rfl, rfl⟩
      rw [← hdb]
      have hbind : findChallenge (bindUserWallet (consumeChallenge db c.id now) uid
          body.xrplWalletAddress) body.nonce =
          findChallenge (consumeChallenge db c.id now) body.nonce := rfl
      rw [hbind, findChallenge_consumeChallenge, hc]
      simp
  · rcases walletVerify_cases w db uid now body with ⟨hdb, _⟩ | ⟨c, _, _, _, _, _, _, heq⟩
    · rw [hdb]
    · rw [heq]
      simp [bindUserWallet, consumeChallenge]
  · intro i c0 c' h0 h' hu
    rcases walletVerify_cases w db uid now body with ⟨hdb, _⟩ | ⟨c, _, _, _, _, _, _, heq⟩
    · rw [hdb, h0] at h'
      cases h'
      exact hu
    · have hch : (walletVerify w db uid now body).1.challenges =
          (consumeChallenge db c.id now).challenges := by
        rw [heq]
        rfl
      rw [hch] at h'
      simp only [consumeChallenge, List.getElem?_map, h0, Option.map_some',
        Option.some.injEq] at h'
      rw [← h']
      by_cases hid : c0.id = c.id <;> simp [hid, hu]
  · intro hinv c' hmem hver
    rcases walletVerify_cases w db uid now body with ⟨hdb, _⟩ | ⟨c, _, _, _, _, _, _, heq⟩
    · rw [hdb] at hmem
      exact hinv c' hmem hver
    · rw [heq] at hmem
      simp only [bindUserWallet, consumeChallenge, List.mem_map] at hmem
      obtain ⟨c0, hc0, hc0'⟩ := hmem
      by_cases hid : c0.id = c.id
      · rw [← hc0']
        simp [hid]
      · rw [← hc0'] at hver ⊢
        simp only [hid, if_neg, ite_false] at hver ⊢
        exact hinv c0 hc0 hver

/-- Witness for C3 (amended): concrete consumed challenge, owner retry within
TTL, observing `AlreadyUsed` and the preservation facts. -/
theorem walletVerify_consumed_is_final_witness :
    (walletVerify wTrue dbUsed "u1" 0 body1).1 = dbUsed ∧
    (walletVerify wTrue dbUsed "u1" 0 body1).2 = Except.error VerifyError.alreadyUsed := by
  have h := walletVerify_consumed_is_final wTrue dbUsed "u1" 0 body1
  have h1 := h.1 chalUsed rfl rfl
  exact ⟨h1.1, h1.2.2 rfl (by decide)⟩

/--
**C9.** A successful `wallet/verify` call mutates exactly two records: the
loaded challenge (its `isUsed`, `isVerified`, `verifiedAt` fields) and the
requesting user's wallet-address field; every other user, every other
challenge, every reward row, and every other field of the requesting user's
row are unchanged.
-/
theorem walletVerify_success_frame
    (w : String → String → String → Except String Bool)
    (db : DB) (uid : String) (now : Nat) (body : VerifyRequest) (db' : DB)
    (h : walletVerify w db uid now body = (db', Except.ok ())) :
    ∃ c, findChallenge db body.nonce = some c ∧
      db'.users = db.users.map (fun u =>
        if u.id = uid then { u with xrplWalletAddress := some body.xrplWalletAddress }
        else u) ∧
      db'.challenges = db.challenges.map (fun ch =>
        if ch.id = c.id then
          { ch with isUsed := true, isVerified := true, verifiedAt := some now }
        else ch) ∧
      db'.rewards = db.rewards ∧
      (∀ u ∈ db.users, u.id ≠ uid → u ∈ db'.users) ∧
      (∀ ch ∈ db.challenges, ch.id ≠ c.id → ch ∈ db'.challenges) := by
  rcases walletVerify_cases w db uid now body with ⟨_, hne⟩ | ⟨c, hc, _, _, _, _, _, heq⟩
  · exact absurd (by rw [h]) hne
  · have hdb : bindUserWallet (consumeChallenge db c.id now) uid
        body.xrplWalletAddress = db' :=
      congrArg Prod.fst (heq.symm.trans h)
    refine ⟨c, hc, ?_, ?_, ?_, ?_, ?_⟩
    · rw [← hdb]
      simp [bindUserWallet, consumeChallenge]
    · rw [← hdb]
      simp [bindUserWallet, consumeChallenge]
    · rw [← hdb]
      simp [bindUserWallet, consumeChallenge]
    · intro u hu hne'
      rw [← hdb]
      simp only [bindUserWallet, consumeChallenge, List.mem_map]
      exact ⟨u, hu, by simp [hne']⟩
    · intro ch hch hne'
      rw [← hdb]
      simp only [bindUserWallet, consumeChallenge, List.mem_map]
      exact ⟨ch, hch, by simp [hne']⟩

/-- Witness for C9: the concrete successful run on `db0`. -/
theorem walletVerify_success_frame_witness :
    ∃ c, findChallenge db0 body1.nonce = some c ∧
      (walletVerify wTrue db0 "u1" 0 body1).1.users = db0.users.map (fun u =>
        if u.id = "u1" then { u with xrplWalletAddress := some body1.xrplWalletAddress }
        else u) ∧
      (walletVerify wTrue db0 "u1" 0 body1).1.challenges = db0.challenges.map (fun ch =>
        if ch.id = c.id then
          { ch with isUsed := true, isVerified := true, verifiedAt := some 0 }
        else ch) ∧
      (walletVerify wTrue db0 "u1" 0 body1).1.rewards = db0.rewards ∧
      (∀ u ∈ db0.users, u.id ≠ "u1" → u ∈ (walletVerify wTrue db0 "u1" 0 body1).1.users) ∧
      (∀ ch ∈ db0.challenges, ch.id ≠ c.id →
        ch ∈ (walletVerify wTrue db0 "u1" 0 body1).1.challenges) :=
  walletVerify_success_frame wTrue db0 "u1" 0 body1 _ rfl

/--
**C1 (code bug).** The `wallet/verify` handler checks only that the signature
is cryptographically valid for the submitted `publicKey`; it never derives an
address from `publicKey` and compares it with the challenge's claimed
address.  Concretely: with a signature oracle that reports validity, and a
derivation under which the public key's address is `rOTHER` ≠ the claimed
`rA`, the call still succeeds and binds `rA` to the user — contradicting the
claim that it must fail with `InvalidSignature`.
-/
theorem walletVerify_binds_despite_foreign_pubkey :
    deriveAddr0 body1.publicKey ≠ body1.xrplWalletAddress ∧
    verifyWalletSignature wTrue chal1.message body1.signature body1.publicKey = true ∧
    (walletVerify wTrue db0 "u1" 0 body1).2 = Except.ok () ∧
    (walletVerify wTrue db0 "u1" 0 body1).1.users =
      [{ user1 with xrplWalletAddress := some body1.xrplWalletAddress }] := by
  exact ⟨by decide, rfl, rfl, rfl⟩

set_option maxRecDepth 8192 in
/--
**C7 counterexample.** Two calls of the challenge-message builder with the
same nonce and the same claimed address but different ambient timestamps
(`new Date().toISOString()` is interpolated into the template) produce
different message text — the builder is not deterministic in (nonce, address)
alone.
-/
theorem generateChallengeMessage_time_dependent :
    generateChallengeMessage "aa" "rA" "2025-01-01T00:00:00.000Z" ≠
      generateChallengeMessage "aa" "rA" "2025-01-01T00:00:01.000Z" := by
  decide

/--
**C7 (amended).** The challenge message builder is deterministic in the full
input triple (nonce, claimed address, issuance timestamp): two calls with the
same nonce and address produce byte-for-byte identical text exactly when the
interpolated timestamps coincide.
-/
theorem generateChallengeMessage_deterministic (nonce addr t1 t2 : String) :
    generateChallengeMessage nonce addr t1 = generateChallengeMessage nonce addr t2 ↔
      t1 = t2 := by
  constructor
  · intro h
    have hd : (generateChallengeMessage nonce addr t1).data =
        (generateChallengeMessage nonce addr t2).data := by rw [h]
    simp only [generateChallengeMessage, String.data_append] at hd
    have h1 := List.append_cancel_right hd
    have h2 := List.append_cancel_left h1
    cases t1
    cases t2
    exact congrArg String.mk h2
  · intro h
    rw [h]

/-- Helper: hex encoding yields two characters per byte. -/
theorem bytesToHexList_length (bs : List Nat) :
    (bytesToHexList bs).length = 2 * bs.length := by
  induction bs with
  | nil => rfl
  | cons b rest ih =>
    simp only [bytesToHexList, List.length_cons, ih]
    omega

/-- Helper: `hexDigit` of any value reduced mod 16 is a lowercase hex digit. -/
theorem isLowerHexChar_hexDigit (n : Nat) :
    isLowerHexChar (hexDigit (n % 16)) = true := by
  have h : n % 16 < 16 := Nat.mod_lt n (by decide)
  exact (by decide : ∀ m : Fin 16, isLowerHexChar (hexDigit m.val) = true) ⟨n % 16, h⟩

/-- Helper: every character of a hex encoding is a lowercase hex digit. -/
theorem bytesToHexList_lower (bs : List Nat) :
    ∀ c ∈ bytesToHexList bs, isLowerHexChar c = true := by
  induction bs with
  | nil => simp [bytesToHexList]
  | cons b rest ih =>
    intro c hc
    simp only [bytesToHexList, List.mem_cons] at hc
    rcases hc with h | h | h
    · subst h
      exact isLowerHexChar_hexDigit (b / 16)
    · subst h
      exact isLowerHexChar_hexDigit b
    · exact ih c h

/--
**C8.** Absent an address conflict, the `wallet/challenge` handler persists
exactly one new challenge whose nonce is the lowercase hex encoding of the 32
bytes drawn from `crypto.randomBytes(32)` (64 characters when 32 bytes are
supplied, every character a lowercase hex digit) and whose `expiresAt` is the
creation time plus the fixed 5-minute TTL (`now + 5 * 60 * 1000` ms).
-/
theorem walletChallenge_hex_nonce_and_ttl
    (db : DB) (uid addr : String) (bs : List Nat) (now : Nat) (nowIso : String)
    (nextId : Nat)
    (hnoconflict : ∀ u, db.users.find? (fun x => x.xrplWalletAddress = some addr) =
      some u → u.id = uid) :
    walletChallenge db uid addr bs now nowIso nextId =
      ({ db with challenges := db.challenges ++
        [{ id := nextId, nonce := bytesToHex bs,
           message := generateChallengeMessage (bytesToHex bs) addr nowIso,
           xrplAddress := addr, userId := uid,
           expiresAt := now + 5 * 60 * 1000, isUsed := false,
           isVerified := false, verifiedAt := none }] },
       Except.ok { nonce := bytesToHex bs,
                   message := generateChallengeMessage (bytesToHex bs) addr nowIso,
                   expiresAt := now + 5 * 60 * 1000 }) ∧
    (bs.length = 32 → (bytesToHex bs).length = 64) ∧
    (∀ c ∈ (bytesToHex bs).data, isLowerHexChar c = true) := by
  refine ⟨?_, ?_, ?_⟩
  · cases hfind : db.users.find? (fun x => x.xrplWalletAddress = some addr) with
    | none => simp [walletChallenge, hfind, walletChallengeIssue]
    | some u =>
      have hu := hnoconflict u hfind
      simp [walletChallenge, hfind, hu, walletChallengeIssue]
  · intro h32
    show (bytesToHexList bs).length = 64
    rw [bytesToHexList_length, h32]
  · exact bytesToHexList_lower bs

/-- Witness for C8: a concrete no-conflict issuance over 32 concrete bytes. -/
theorem walletChallenge_hex_nonce_and_ttl_witness :
    walletChallenge db0 "u1" "rA" (List.range 32) 100 "T0" 7 =
      ({ db0 with challenges := db0.challenges ++
        [{ id := 7, nonce := bytesToHex (List.range 32),
           message := generateChallengeMessage (bytesToHex (List.range 32)) "rA" "T0",
           xrplAddress := "rA", userId := "u1",
           expiresAt := 100 + 5 * 60 * 1000, isUsed := false,
           isVerified := false, verifiedAt := none }] },
       Except.ok { nonce := bytesToHex (List.range 32),
                   message := generateChallengeMessage (bytesToHex (List.range 32)) "rA" "T0",
                   expiresAt := 100 + 5 * 60 * 1000 }) ∧
    (bytesToHex (List.range 32)).length = 64 := by
  have h := walletChallenge_hex_nonce_and_ttl db0 "u1" "rA" (List.range 32) 100 "T0" 7
    (by intro u hu; exact Option.noConfusion hu)
  exact ⟨h.1, h.2.1 (by decide)⟩

/--
**C4 (code bug).** `sendTokenReward` performs no dedupe on the
`(beneficiaryUserId, contributionRef, tokenKind)` triple: triggering the same
contribution twice (both external submissions succeeding) leaves two
CONFIRMED reward rows for the identical triple, contradicting the
at-most-one-CONFIRMED invariant.
-/
theorem rewardVerifiedContribution_duplicate_confirmed :
    countConfirmedTriple
      ((rewardVerifiedContribution cfg0 (ChainOutcome.success "HASH2")
        ((rewardVerifiedContribution cfg0 (ChainOutcome.success "HASH1")
          dbR "u1" "p1" "10" 5).1)
        "u1" "p1" "10" 6).1) "u1" "p1" TokenType.EXPLORER = 2 := by
  decide

/--
**C5.** When the external-ledger submission fails (a non-`tesSUCCESS` result
or a thrown network error with a non-empty message), the reward row ends
FAILED with a non-empty `errorMessage`, while the synthesis trigger that
caused the reward still returns its own 201 success: the reward failure is
swallowed by the handler's `try`/`catch`.
-/
theorem synthesisTrigger_isolates_reward_failure
    (cfg : TokenDistribution) (db : DB) (p : Post) (u : User) (addr : String)
    (now : Nat)
    (hfind : db.users.find? (fun x => x.id = p.authorId) = some u)
    (haddr : u.xrplWalletAddress = some addr) :
    ((synthesisTrigger cfg ChainOutcome.notSuccess db (some p) now).2.statusCode = 201 ∧
      ∃ r, (synthesisTrigger cfg ChainOutcome.notSuccess db (some p) now).1.rewards.getLast?
          = some r ∧
        r.status = RewardStatus.FAILED ∧
        r.errorMessage = some "Transaction not successful" ∧
        "Transaction not successful" ≠ "") ∧
    (∀ m : String, m ≠ "" →
      (synthesisTrigger cfg (ChainOutcome.netError m) db (some p) now).2.statusCode = 201 ∧
      ∃ r, (synthesisTrigger cfg (ChainOutcome.netError m) db (some p) now).1.rewards.getLast?
          = some r ∧
        r.status = RewardStatus.FAILED ∧ r.errorMessage = some m) := by
  constructor
  · constructor
    · simp [synthesisTrigger, rewardVerifiedContribution, hfind, haddr, sendTokenReward]
    · refine ⟨finalizeReward (mkTokenReward db.rewards.length p.authorId TokenType.EXPLORER
        "10" addr (getTokenConfig cfg TokenType.EXPLORER).issuerAddress
        (getTokenConfig cfg TokenType.EXPLORER).currency
        ("Verified contribution in post " ++ p.id) (some p.id)) ChainOutcome.notSuccess now,
        ?_, rfl, rfl, by decide⟩
      simp [synthesisTrigger, rewardVerifiedContribution, hfind, haddr, sendTokenReward,
        List.getLast?_concat]
  · intro m hm
    constructor
    · simp [synthesisTrigger, rewardVerifiedContribution, hfind, haddr, sendTokenReward]
    · refine ⟨finalizeReward (mkTokenReward db.rewards.length p.authorId TokenType.EXPLORER
        "10" addr (getTokenConfig cfg TokenType.EXPLORER).issuerAddress
        (getTokenConfig cfg TokenType.EXPLORER).currency
        ("Verified contribution in post " ++ p.id) (some p.id)) (ChainOutcome.netError m) now,
        ?_, rfl, rfl⟩
      simp [synthesisTrigger, rewardVerifiedContribution, hfind, haddr, sendTokenReward,
        List.getLast?_concat]

/-- Witness for C5: a concrete failed submission inside a trigger that still
returns 201. -/
theorem synthesisTrigger_isolates_reward_failure_witness :
    (synthesisTrigger cfg0 ChainOutcome.notSuccess dbR (some post1) 9).2.statusCode = 201 ∧
    ∃ r, (synthesisTrigger cfg0 ChainOutcome.notSuccess dbR (some post1) 9).1.rewards.getLast?
        = some r ∧
      r.status = RewardStatus.FAILED ∧
      r.errorMessage = some "Transaction not successful" ∧
      "Transaction not successful" ≠ "" :=
  (synthesisTrigger_isolates_reward_failure cfg0 dbR post1 userW "rDest" 9 rfl rfl).1

/--
**C6 counterexample.** The reward row is created with status PROCESSING — the
`prisma.tokenReward.create` call in `sendTokenReward` passes
`status: 'PROCESSING'` — not PENDING as the claim states; no PENDING phase
exists on this code path.
-/
theorem tokenReward_created_processing_not_pending :
    (mkTokenReward 0 "u1" TokenType.EXPLORER "10" "rDest" "rIssuer" "EXP" "why"
      (some "p1")).status = RewardStatus.PROCESSING ∧
    RewardStatus.PROCESSING ≠ RewardStatus.PENDING :=
  ⟨rfl, by decide⟩

/--
**C6 (amended).** Every reward row is created with status PROCESSING at the
moment submission begins (creation and submission are one step in
`sendTokenReward`); the row then settles to CONFIRMED exactly when the chain
reports success and to FAILED otherwise; these are terminal: a
`sendTokenReward` call appends its one new row and leaves every pre-existing
row — including CONFIRMED/FAILED ones — untouched.
-/
theorem sendTokenReward_lifecycle (cfg : TokenDistribution) (chain : ChainOutcome)
    (db : DB) (recipient amount : String) (tokenType : TokenType)
    (reason userId : String) (postId : Option String) (now : Nat) :
    (mkTokenReward db.rewards.length userId tokenType amount recipient
      (getTokenConfig cfg tokenType).issuerAddress
      (getTokenConfig cfg tokenType).currency reason postId).status =
        RewardStatus.PROCESSING ∧
    (sendTokenReward cfg chain db recipient amount tokenType reason userId postId now).1.rewards
      = db.rewards ++ [finalizeReward (mkTokenReward db.rewards.length userId tokenType
          amount recipient (getTokenConfig cfg tokenType).issuerAddress
          (getTokenConfig cfg tokenType).currency reason postId) chain now] ∧
    (∀ r : TokenReward, (finalizeReward r chain now).status = RewardStatus.CONFIRMED ∨
      (finalizeReward r chain now).status = RewardStatus.FAILED) ∧
    (∀ r : TokenReward, ((finalizeReward r chain now).status = RewardStatus.CONFIRMED ↔
      ∃ h, chain = ChainOutcome.success h)) := by
  refine ⟨rfl, ?_, ?_, ?_⟩
  · cases chain <;> rfl
  · intro r
    cases chain <;> simp [finalizeReward]
  · intro r
    cases chain <;> simp [finalizeReward]
